import Mathlib

/-!
Verification of the Open3D GUI application run loop
(cpp/open3d/visualization/gui/Application.cpp).

The state kept in Application::Impl is modelled as an explicit record;
windows are identified by their pointer identity (a natural number),
posted closures by an identity tag, background tasks by an identity tag
plus their finished flag.  Filesystem queries (FileExists /
DirectoryExists) are passed in as boolean-valued functions.  Time is
modelled as a rational number (the source uses seconds as double).
-/

namespace Open3DGui

/-- The fixed run-loop timeout: RUNLOOP_DELAY_SEC = 0.010 seconds. -/
def RUNLOOP_DELAY_SEC : ℚ := 1/100

/-- Application::Impl::Posted: a target window pointer (possibly null,
modelled by Option) together with a closure, identified by a tag. -/
structure Posted where
  window : Option Nat
  fid : Nat
deriving DecidableEq, Repr

/-- A background task in Impl::running_tasks_: an identity tag and the
observable finished flag (Task::IsFinished). -/
structure Task where
  tid : Nat
  finished : Bool
deriving DecidableEq, Repr

/-- The fields of Application::Impl that the run-loop logic touches.
windows_ and windows_to_be_destroyed_ are unordered sets of window
pointers; we model them as duplicate-free lists of identities. -/
structure AppState where
  is_init : Bool := false
  is_ws_init : Bool := false
  is_running : Bool := false
  should_quit : Bool := false
  resource_path : String := ""
  font_path : String := "Roboto-Medium.ttf"
  windows : List Nat := []
  windows_to_be_destroyed : List Nat := []
  running_tasks : List Task := []
  posted : List Posted := []
  last_time : ℚ := 0
deriving DecidableEq, Repr

/-- The freshly constructed Application (Application::Application sets
theme_.font_path = "Roboto-Medium.ttf"; everything else defaults). -/
def initState : AppState := {}

/-- std::unordered_set insert: no-op if the element is already present. -/
def insertSet (w : Nat) (l : List Nat) : List Nat :=
  if w ∈ l then l else w :: l

/-- Impl::PrepareForRunning: (re)initializes the window system and the
rendering backend.  Only the is_ws_initialized flag is observable here. -/
def prepareForRunning (s : AppState) : AppState :=
  { s with is_ws_init := true }

/-- Impl::CleanupAfterRunning: destroys the engine instance and
uninitializes the window system. -/
def cleanupAfterRunning (s : AppState) : AppState :=
  { s with is_ws_init := false }

/-- Application::AddWindow: after the WebRTC wiring (which does not touch
the registry sets), the window gets an initial resize, is shown, and is
inserted into windows_. -/
def addWindow (s : AppState) (w : Nat) : AppState :=
  { s with windows := insertSet w s.windows }

/-- Application::RemoveWindow: if the pointer is found in windows_, hide
the window, insert it into windows_to_be_destroyed_, and erase it from
windows_ (then break).  Afterwards, if windows_ is empty, set
should_quit_. -/
def removeWindow (s : AppState) (w : Nat) : AppState :=
  let s1 :=
    if w ∈ s.windows then
      { s with windows := s.windows.erase w,
               windows_to_be_destroyed := insertSet w s.windows_to_be_destroyed }
    else s
  if s1.windows.isEmpty then { s1 with should_quit := true } else s1

/-- Application::Initialize(const char *resource_path_).  The source of
this repository ignores the resource_path_ argument: it overwrites the
local with a hard-coded path (GetUnixHome() + "/repo/Open3D/build/bin/resources",
marked "TODO: remove hard-coded path").  It then calls PrepareForRunning,
returns early when already initialized, sets the engine resource path,
raises a hard error (utility::LogError throws) when
resource_path/ui_blit.filamat does not exist, and otherwise prefixes the
theme font path with the resource path and marks the app initialized.
The returned Option String is the hard error, if any. -/
def initApp (fileExists : String → Bool) (home : String)
    (resource_path_ : String) (s : AppState) : AppState × Option String :=
  let resource_path := home ++ "/repo/Open3D/build/bin/resources"
  let s1 := prepareForRunning s
  if s1.is_init then (s1, none)
  else
    let s2 := { s1 with resource_path := resource_path }
    if fileExists (resource_path ++ "/ui_blit.filamat") then
      ({ s2 with font_path := resource_path ++ "/" ++ s2.font_path,
                 is_init := true }, none)
    else
      (s2, some ("Resource directory does not have Open3D resources: "
                 ++ resource_path))

/-- Application::PostToMainThread: appends (window, f) to posted_. -/
def postToMainThread (s : AppState) (window : Option Nat) (fid : Nat) :
    AppState :=
  { s with posted := s.posted ++ [⟨window, fid⟩] }

/-- Application::RunInThread: appends the task to running_tasks_ and
starts it. -/
def runInThread (s : AppState) (t : Task) : AppState :=
  { s with running_tasks := s.running_tasks ++ [t] }

/-- The per-entry action of the posted-closure loop in
ProcessQueuedEvents: an entry with a target window that is no longer in
windows_ is skipped; every other entry has its closure invoked.  Returns
the identities of the invoked closures, in queue order. -/
def drainPosted (windows : List Nat) (posted : List Posted) : List Nat :=
  posted.filterMap (fun p =>
    match p.window with
    | none => some p.fid
    | some w => if w ∈ windows then some p.fid else none)

inductive RunStatus where
  | CONTINUE
  | DONE
deriving DecidableEq, Repr

/-- Result of one ProcessQueuedEvents call: the new state, the windows
that received OnTickEvent, the closures that were invoked (in order),
and the returned RunStatus. -/
structure TickOutcome where
  state : AppState
  ticked : List Nat
  executed : List Nat
  status : RunStatus
deriving DecidableEq, Repr

/-- Application::ProcessQueuedEvents.  After the bounded event wait
(time now is sampled after it): if now - last_time_ >= 0.95 *
RUNLOOP_DELAY_SEC, every window in windows_ receives OnTickEvent and
last_time_ is set to now; the posted_ list is drained (see drainPosted)
and cleared; finished tasks are removed from running_tasks_;
windows_to_be_destroyed_ is cleared; the result is DONE when
should_quit_ is set, else CONTINUE. -/
def processQueuedEvents (s : AppState) (now : ℚ) : TickOutcome :=
  let doTick : Bool := decide (now - s.last_time ≥ 95/100 * RUNLOOP_DELAY_SEC)
  let ticked := if doTick then s.windows else []
  let s1 := if doTick then { s with last_time := now } else s
  let executed := drainPosted s1.windows s1.posted
  let s2 := { s1 with posted := [] }
  let s3 := { s2 with running_tasks := s2.running_tasks.filter (fun t => !t.finished) }
  let s4 := { s3 with windows_to_be_destroyed := [] }
  { state := s4, ticked := ticked, executed := executed,
    status := if s4.should_quit then RunStatus.DONE else RunStatus.CONTINUE }

/-- The task-clearing loop in RunOneTick:

  for (auto it = begin; it != end; ++it) \x7b
      auto current = it; ++it; erase(current);
  \x7d

The body advances the iterator once and the for-step advances it again,
so the loop erases the elements at positions 0, 2, 4, ... and keeps the
elements at odd positions.  (For odd list lengths the final for-step
increments the end iterator, which C++ leaves undefined; the erasures up
to that point are as modelled.) -/
def clearTasksLoop : List Task → List Task
  | [] => []
  | [_] => []
  | _ :: t2 :: rest => t2 :: clearTasksLoop rest

/-- Result of one RunOneTick call: the new state, the boolean return
value (true = keep running), the native alert raised, if any, and the
tick/closure activity of the step. -/
structure StepOutcome where
  state : AppState
  res : Bool
  alert : Option String
  ticked : List Nat
  executed : List Nat
deriving DecidableEq, Repr

/-- The tail of RunOneTick after the not-running checks: process queued
events; on DONE with cleanup_if_no_windows run the task-clearing loop,
clear is_running_, CleanupAfterRunning, and in every DONE case reset
should_quit_; return status == CONTINUE. -/
def runTickBody (now : ℚ) (cleanup_if_no_windows : Bool) (s : AppState) :
    StepOutcome :=
  let r := processQueuedEvents s now
  let s' :=
    if r.status = RunStatus.DONE then
      let sc :=
        if cleanup_if_no_windows then
          cleanupAfterRunning
            { r.state with
                running_tasks := clearTasksLoop r.state.running_tasks,
                is_running := false }
        else r.state
      { sc with should_quit := false }
    else r.state
  { state := s', res := decide (r.status = RunStatus.CONTINUE), alert := none,
    ticked := r.ticked, executed := r.executed }

/-- Application::RunOneTick.  When not yet running: raise a native alert
and return false if the app is uninitialized, if the engine resource
directory does not exist, or if the theme font file does not exist;
otherwise PrepareForRunning, set is_running_, and fall through to event
processing. -/
def runOneTick (dirExists fileExists : String → Bool) (now : ℚ)
    (cleanup_if_no_windows : Bool) (s : AppState) : StepOutcome :=
  if s.is_running then runTickBody now cleanup_if_no_windows s
  else if !s.is_init then
    { state := s, res := false,
      alert := some "Internal error: Application::Initialize() was not called",
      ticked := [], executed := [] }
  else if !dirExists s.resource_path then
    { state := s, res := false,
      alert := some ("Could not find resource directory: "
                     ++ s.resource_path ++ " does not exist"),
      ticked := [], executed := [] }
  else if !fileExists s.font_path then
    { state := s, res := false,
      alert := some ("Could not load UI font: "
                     ++ s.font_path ++ " does not exist"),
      ticked := [], executed := [] }
  else
    runTickBody now cleanup_if_no_windows
      { prepareForRunning s with is_running := true }

/-- A registry operation: Application::AddWindow or
Application::RemoveWindow. -/
inductive RegOp where
  | add (w : Nat)
  | remove (w : Nat)
deriving DecidableEq, Repr

def applyOp (s : AppState) : RegOp → AppState
  | .add w => addWindow s w
  | .remove w => removeWindow s w

def applyOps (s : AppState) : List RegOp → AppState
  | [] => s
  | op :: rest => applyOps (applyOp s op) rest

/-- An AddWindow is admissible at a state when its window is not
currently pending destruction. -/
def goodOp (s : AppState) : RegOp → Bool
  | .add w => decide (w ∉ s.windows_to_be_destroyed)
  | .remove _ => true

/-- A trace of registry operations in which AddWindow is never applied
to a window that is currently pending destruction (checked at the state
in which the operation runs). -/
def goodTrace (s : AppState) : List RegOp → Bool
  | [] => true
  | op :: rest => goodOp s op && goodTrace (applyOp s op) rest

/-! ### Projection lemmas for the operations -/

theorem runOneTick_of_running {s : AppState} (h : s.is_running = true)
    (dirExists fileExists : String → Bool) (now : ℚ) (cu : Bool) :
    runOneTick dirExists fileExists now cu s = runTickBody now cu s := by
  unfold runOneTick
  rw [if_pos h]

theorem removeWindow_windows (s : AppState) (w : Nat) :
    (removeWindow s w).windows
      = if w ∈ s.windows then s.windows.erase w else s.windows := by
  unfold removeWindow
  by_cases h : w ∈ s.windows <;> simp only [h, if_true, if_false] <;>
    split <;> rfl

theorem removeWindow_destroyed (s : AppState) (w : Nat) :
    (removeWindow s w).windows_to_be_destroyed
      = if w ∈ s.windows then insertSet w s.windows_to_be_destroyed
        else s.windows_to_be_destroyed := by
  unfold removeWindow
  by_cases h : w ∈ s.windows <;> simp only [h, if_true, if_false] <;>
    split <;> rfl

theorem removeWindow_should_quit (s : AppState) (w : Nat) :
    (removeWindow s w).should_quit
      = if (removeWindow s w).windows.isEmpty then true else s.should_quit := by
  rw [removeWindow_windows]
  unfold removeWindow
  by_cases h : w ∈ s.windows <;> simp only [h, if_true, if_false] <;>
    split <;> rfl

theorem removeWindow_posted (s : AppState) (w : Nat) :
    (removeWindow s w).posted = s.posted := by
  unfold removeWindow
  by_cases h : w ∈ s.windows <;> simp only [h, if_true, if_false] <;>
    split <;> rfl

theorem removeWindow_is_running (s : AppState) (w : Nat) :
    (removeWindow s w).is_running = s.is_running := by
  unfold removeWindow
  by_cases h : w ∈ s.windows <;> simp only [h, if_true, if_false] <;>
    split <;> rfl

theorem not_mem_removeWindow (s : AppState) (w : Nat)
    (hnd : s.windows.Nodup) : w ∉ (removeWindow s w).windows := by
  rw [removeWindow_windows]
  by_cases h : w ∈ s.windows
  · simpa [h] using hnd.not_mem_erase
  · simp [h]

theorem mem_insertSet {x w : Nat} {l : List Nat} :
    x ∈ insertSet w l ↔ x = w ∨ x ∈ l := by
  unfold insertSet
  split <;> rename_i h
  · exact ⟨fun hx => Or.inr hx, fun hx => hx.elim (fun e => e ▸ h) id⟩
  · simp

theorem pqe_executed (s : AppState) (now : ℚ) :
    (processQueuedEvents s now).executed = drainPosted s.windows s.posted := by
  unfold processQueuedEvents
  dsimp only
  split <;> rfl

theorem pqe_ticked (s : AppState) (now : ℚ) :
    (processQueuedEvents s now).ticked
      = if now - s.last_time ≥ 95/100 * RUNLOOP_DELAY_SEC then s.windows
        else [] := by
  unfold processQueuedEvents
  by_cases h : now - s.last_time ≥ 95/100 * RUNLOOP_DELAY_SEC <;> simp [h]

theorem pqe_state_last_time (s : AppState) (now : ℚ) :
    (processQueuedEvents s now).state.last_time
      = if now - s.last_time ≥ 95/100 * RUNLOOP_DELAY_SEC then now
        else s.last_time := by
  unfold processQueuedEvents
  by_cases h : now - s.last_time ≥ 95/100 * RUNLOOP_DELAY_SEC <;> simp [h]

theorem pqe_state_windows (s : AppState) (now : ℚ) :
    (processQueuedEvents s now).state.windows = s.windows := by
  unfold processQueuedEvents
  dsimp only
  split <;> rfl

theorem pqe_state_posted (s : AppState) (now : ℚ) :
    (processQueuedEvents s now).state.posted = [] := rfl

theorem pqe_status (s : AppState) (now : ℚ) :
    (processQueuedEvents s now).status
      = if s.should_quit then RunStatus.DONE else RunStatus.CONTINUE := by
  unfold processQueuedEvents
  dsimp only
  split <;> rfl

theorem runTickBody_res (now : ℚ) (cu : Bool) (s : AppState) :
    (runTickBody now cu s).res
      = decide ((processQueuedEvents s now).status = RunStatus.CONTINUE) := rfl

theorem runTickBody_state_windows (now : ℚ) (cu : Bool) (s : AppState) :
    (runTickBody now cu s).state.windows = s.windows := by
  unfold runTickBody
  dsimp only
  split
  · split <;> simp [cleanupAfterRunning, pqe_state_windows]
  · exact pqe_state_windows s now

theorem pqe_state_running_tasks (s : AppState) (now : ℚ) :
    (processQueuedEvents s now).state.running_tasks
      = s.running_tasks.filter (fun t => !t.finished) := by
  unfold processQueuedEvents
  dsimp only
  split <;> rfl

theorem runTickBody_done_cleanup (now : ℚ) (s : AppState)
    (hq : s.should_quit = true) :
    (runTickBody now true s).state.running_tasks
      = clearTasksLoop (processQueuedEvents s now).state.running_tasks ∧
    (runTickBody now true s).state.is_ws_init = false ∧
    (runTickBody now true s).state.is_running = false ∧
    (runTickBody now true s).state.should_quit = false := by
  unfold runTickBody
  dsimp only
  rw [pqe_status, hq]
  simp [cleanupAfterRunning]

/-! ### Lemmas about the posted-closure drain -/

theorem drainPosted_sublist (windows : List Nat) (posted : List Posted) :
    List.Sublist (drainPosted windows posted) (posted.map Posted.fid) := by
  induction posted with
  | nil => simp [drainPosted]
  | cons p ps ih =>
    simp only [drainPosted, List.filterMap_cons, List.map_cons]
    cases hw : p.window with
    | none => exact List.Sublist.cons₂ p.fid ih
    | some w =>
      by_cases hmem : w ∈ windows
      · simp only [hmem, if_pos]
        exact List.Sublist.cons₂ p.fid ih
      · simp only [hmem, if_neg, if_false]
        exact List.Sublist.cons p.fid ih

theorem mem_drainPosted_of_none {windows : List Nat} {posted : List Posted}
    {p : Posted} (hp : p ∈ posted) (hw : p.window = none) :
    p.fid ∈ drainPosted windows posted := by
  unfold drainPosted
  exact List.mem_filterMap.mpr ⟨p, hp, by rw [hw]⟩

theorem drainPosted_append (windows : List Nat) (l1 l2 : List Posted) :
    drainPosted windows (l1 ++ l2)
      = drainPosted windows l1 ++ drainPosted windows l2 := by
  unfold drainPosted
  exact List.filterMap_append l1 l2 _

theorem drainPosted_skip {windows : List Nat} {w fid : Nat}
    (hw : w ∉ windows) (l2 : List Posted) :
    drainPosted windows (⟨some w, fid⟩ :: l2) = drainPosted windows l2 := by
  simp [drainPosted, hw]

/-! ### The window-registry invariant -/

/-- The registry invariant: the active set holds no duplicates and is
disjoint from the pending-destroy set. -/
def RegInv (s : AppState) : Prop :=
  s.windows.Nodup ∧ ∀ w ∈ s.windows, w ∉ s.windows_to_be_destroyed

theorem regInv_initState : RegInv initState :=
  ⟨List.nodup_nil, by intro w hw; cases hw⟩

theorem regInv_addWindow {s : AppState} {w : Nat} (h : RegInv s)
    (hw : w ∉ s.windows_to_be_destroyed) : RegInv (addWindow s w) := by
  obtain ⟨hnd, hdisj⟩ := h
  unfold addWindow insertSet
  constructor
  · dsimp only
    split <;> rename_i hmem
    · exact hnd
    · exact List.Nodup.cons hmem hnd
  · intro x hx
    dsimp only at hx ⊢
    split at hx <;> rename_i hmem
    · exact hdisj x hx
    · rw [List.mem_cons] at hx
      rcases hx with rfl | hx
      · exact hw
      · exact hdisj x hx

theorem regInv_removeWindow {s : AppState} (w : Nat) (h : RegInv s) :
    RegInv (removeWindow s w) := by
  obtain ⟨hnd, hdisj⟩ := h
  constructor
  · rw [removeWindow_windows]
    split
    · exact hnd.erase w
    · exact hnd
  · intro x hx
    rw [removeWindow_windows] at hx
    rw [removeWindow_destroyed]
    split at hx <;> rename_i hmem
    · rw [if_pos hmem, mem_insertSet]
      have hxw : x ≠ w ∧ x ∈ s.windows := (hnd.mem_erase_iff).mp hx
      push_neg
      exact ⟨hxw.1, hdisj x hxw.2⟩
    · rw [if_neg hmem]
      exact hdisj x hx

theorem destroyed_mono_applyOp (s : AppState) (op : RegOp) :
    s.windows_to_be_destroyed ⊆ (applyOp s op).windows_to_be_destroyed := by
  cases op with
  | add w => exact fun x hx => hx
  | remove w =>
    intro x hx
    show x ∈ (removeWindow s w).windows_to_be_destroyed
    rw [removeWindow_destroyed]
    split
    · exact mem_insertSet.mpr (Or.inr hx)
    · exact hx

theorem applyOps_append (s : AppState) (l1 l2 : List RegOp) :
    applyOps s (l1 ++ l2) = applyOps (applyOps s l1) l2 := by
  induction l1 generalizing s with
  | nil => rfl
  | cons op rest ih =>
    show applyOps (applyOp s op) (rest ++ l2)
        = applyOps (applyOps (applyOp s op) rest) l2
    exact ih (applyOp s op)

theorem goodTrace_append (s : AppState) (l1 l2 : List RegOp) :
    goodTrace s (l1 ++ l2)
      = (goodTrace s l1 && goodTrace (applyOps s l1) l2) := by
  induction l1 generalizing s with
  | nil => simp [goodTrace, applyOps]
  | cons op rest ih =>
    show (goodOp s op && goodTrace (applyOp s op) (rest ++ l2))
        = ((goodOp s op && goodTrace (applyOp s op) rest)
            && goodTrace (applyOps (applyOp s op) rest) l2)
    rw [ih (applyOp s op), Bool.and_assoc]

theorem regInv_applyOps (s : AppState) (ops : List RegOp) (hInv : RegInv s)
    (hg : goodTrace s ops = true) :
    RegInv (applyOps s ops) ∧
      s.windows_to_be_destroyed ⊆ (applyOps s ops).windows_to_be_destroyed := by
  induction ops generalizing s with
  | nil => exact ⟨hInv, fun x hx => hx⟩
  | cons op rest ih =>
    rw [show goodTrace s (op :: rest)
          = (goodOp s op && goodTrace (applyOp s op) rest) from rfl,
        Bool.and_eq_true] at hg
    obtain ⟨h1, h2⟩ := hg
    have hstep : RegInv (applyOp s op) := by
      cases op with
      | add w =>
        simp only [goodOp, decide_eq_true_eq] at h1
        exact regInv_addWindow hInv h1
      | remove w => exact regInv_removeWindow w hInv
    obtain ⟨hInv2, hsub⟩ := ih (applyOp s op) hstep h2
    exact ⟨hInv2, fun x hx =>
      hsub (destroyed_mono_applyOp s op hx)⟩

/-! ### Claim theorems -/

/-- The filesystem for the C1 evaluation: exactly one file exists, the
expected UI resource file under the path that was PASSED to Initialize. -/
def c1_fs : String → Bool :=
  fun path => path == "/given/resources/ui_blit.filamat"

/-- C1: evaluation at the failing input.  Initialize is called with the
path "/given/resources", under which the expected UI resource file
ui_blit.filamat exists; nevertheless the call reports the hard error and
leaves the app uninitialized, because the source overwrites the argument
with the hard-coded path HOME/repo/Open3D/build/bin/resources (marked
"TODO: remove hard-coded path") and checks for ui_blit.filamat there.
The resource path is configured from the hard-coded path, not from the
given one. -/
theorem c1_given_path_ignored :
    c1_fs ("/given/resources" ++ "/ui_blit.filamat") = true ∧
    (initApp c1_fs "/home/user" "/given/resources" initState).2.isSome = true ∧
    (initApp c1_fs "/home/user" "/given/resources" initState).1.resource_path
      = "/home/user/repo/Open3D/build/bin/resources" ∧
    (initApp c1_fs "/home/user" "/given/resources" initState).1.is_init
      = false :=
  ⟨rfl, rfl, rfl, rfl⟩

/-- C2: counterexample to the claim as stated.  The operation sequence
addWindow 0, removeWindow 0, addWindow 0 starting from the empty
registry leaves window 0 in the active set AND in the pending-destroy
set, so the two sets are not disjoint, and window 0 moved from
pending_destroy back to active. -/
theorem c2_counterexample :
    0 ∈ (applyOps initState
          [RegOp.add 0, RegOp.remove 0, RegOp.add 0]).windows ∧
    0 ∈ (applyOps initState
          [RegOp.add 0, RegOp.remove 0, RegOp.add 0]).windows_to_be_destroyed := by
  decide

/-- C2 (amended): for every sequence of addWindow/removeWindow
operations from the empty registry in which addWindow is never applied
to a window currently pending destruction, after every prefix the active
and pending-destroy sets are disjoint, and a window that is pending
destruction at some point is never active at any later point. -/
theorem c2_registry_invariant (ops l1 l2 l3 : List RegOp) (w : Nat)
    (hops : ops = l1 ++ l2 ++ l3)
    (hg : goodTrace initState ops = true) :
    (∀ x ∈ (applyOps initState l1).windows,
        x ∉ (applyOps initState l1).windows_to_be_destroyed) ∧
    (w ∈ (applyOps initState l1).windows_to_be_destroyed →
        w ∉ (applyOps initState (l1 ++ l2)).windows) := by
  subst hops
  rw [goodTrace_append, Bool.and_eq_true] at hg
  obtain ⟨hg12, _⟩ := hg
  rw [goodTrace_append, Bool.and_eq_true] at hg12
  obtain ⟨hg1, hg2⟩ := hg12
  obtain ⟨hInv1, -⟩ := regInv_applyOps initState l1 regInv_initState hg1
  obtain ⟨hInv2, hsub⟩ :=
    regInv_applyOps (applyOps initState l1) l2 hInv1 hg2
  refine ⟨hInv1.2, fun hw hmem => ?_⟩
  rw [applyOps_append] at hmem
  exact hInv2.2 w hmem (hsub hw)

theorem c2_registry_invariant_witness :
    goodTrace initState
        ([RegOp.add 1, RegOp.remove 1] ++ [RegOp.add 2] ++ []) = true ∧
    ((∀ x ∈ (applyOps initState [RegOp.add 1, RegOp.remove 1]).windows,
        x ∉ (applyOps initState
              [RegOp.add 1, RegOp.remove 1]).windows_to_be_destroyed) ∧
     (1 ∈ (applyOps initState
            [RegOp.add 1, RegOp.remove 1]).windows_to_be_destroyed →
        1 ∉ (applyOps initState
              ([RegOp.add 1, RegOp.remove 1] ++ [RegOp.add 2])).windows)) :=
  ⟨by decide,
   c2_registry_invariant ([RegOp.add 1, RegOp.remove 1] ++ [RegOp.add 2] ++ [])
     [RegOp.add 1, RegOp.remove 1] [RegOp.add 2] [] 1 rfl (by decide)⟩

/-- C9: a second Initialize call after a successful first one changes no
configuration state: the early return on the initialized flag fires, so
the resource path, the font path and the initialized flag are unchanged,
no error is raised, and the resource-file existence check is not
repeated (the result does not depend on the filesystem at all; only
PrepareForRunning runs again). -/
theorem c9_init_idempotent (fileExists : String → Bool)
    (home given : String) (s : AppState) (h : s.is_init = true) :
    (initApp fileExists home given s).1 = prepareForRunning s ∧
    (initApp fileExists home given s).2 = none ∧
    (initApp fileExists home given s).1.font_path = s.font_path ∧
    (initApp fileExists home given s).1.resource_path = s.resource_path ∧
    (initApp fileExists home given s).1.is_init = true := by
  simp [initApp, prepareForRunning, h]

def c9_state : AppState := { is_init := true }

theorem c9_init_idempotent_witness :
    c9_state.is_init = true ∧
    ((initApp (fun _ => false) "/home/user" "/given" c9_state).1
        = prepareForRunning c9_state ∧
     (initApp (fun _ => false) "/home/user" "/given" c9_state).2 = none ∧
     (initApp (fun _ => false) "/home/user" "/given" c9_state).1.font_path
        = c9_state.font_path ∧
     (initApp (fun _ => false) "/home/user" "/given" c9_state).1.resource_path
        = c9_state.resource_path ∧
     (initApp (fun _ => false) "/home/user" "/given" c9_state).1.is_init
        = true) :=
  ⟨rfl, c9_init_idempotent (fun _ => false) "/home/user" "/given" c9_state rfl⟩

/-- C10: RemoveWindow with a window pointer that is not in the active
set leaves the active set and the pending-destroy set unchanged, and
sets the QuitFlag exactly when the active set is (already) empty
(otherwise the flag keeps its previous value). -/
theorem c10_remove_absent (s : AppState) (w : Nat) (h : w ∉ s.windows) :
    (removeWindow s w).windows = s.windows ∧
    (removeWindow s w).windows_to_be_destroyed
      = s.windows_to_be_destroyed ∧
    (removeWindow s w).should_quit
      = (if s.windows.isEmpty then true else s.should_quit) := by
  refine ⟨?_, ?_, ?_⟩
  · rw [removeWindow_windows, if_neg h]
  · rw [removeWindow_destroyed, if_neg h]
  · rw [removeWindow_should_quit, removeWindow_windows, if_neg h]

theorem c10_remove_absent_witness :
    7 ∉ initState.windows ∧
    ((removeWindow initState 7).windows = initState.windows ∧
     (removeWindow initState 7).windows_to_be_destroyed
       = initState.windows_to_be_destroyed ∧
     (removeWindow initState 7).should_quit
       = (if initState.windows.isEmpty then true
          else initState.should_quit)) :=
  ⟨by decide, c10_remove_absent initState 7 (by decide)⟩

/-- C3: a closure posted with a non-null target window whose window is
removed from the active set before the next drain is never invoked, and
is discarded silently: the drain output is exactly what it would be
without that entry, no error is produced, and the queue is cleared. -/
theorem c3_removed_target_dropped (s : AppState) (now : ℚ) (w fid : Nat)
    (l1 l2 : List Posted) (hnd : s.windows.Nodup)
    (hp : s.posted = l1 ++ ⟨some w, fid⟩ :: l2) :
    (processQueuedEvents (removeWindow s w) now).executed
      = drainPosted (removeWindow s w).windows (l1 ++ l2) ∧
    (processQueuedEvents (removeWindow s w) now).state.posted = [] := by
  have hw : w ∉ (removeWindow s w).windows := not_mem_removeWindow s w hnd
  constructor
  · rw [pqe_executed, removeWindow_posted, hp, drainPosted_append,
        drainPosted_skip hw, ← drainPosted_append]
  · exact pqe_state_posted _ now

def c3_state : AppState := { windows := [3], posted := [⟨some 3, 10⟩] }

theorem c3_removed_target_dropped_witness :
    c3_state.windows.Nodup ∧
    c3_state.posted = [] ++ (⟨some 3, 10⟩ : Posted) :: [] ∧
    ((processQueuedEvents (removeWindow c3_state 3) 1).executed
        = drainPosted (removeWindow c3_state 3).windows ([] ++ []) ∧
     (processQueuedEvents (removeWindow c3_state 3) 1).state.posted = []) :=
  ⟨by decide, rfl,
   c3_removed_target_dropped c3_state 1 3 10 [] [] (by decide) rfl⟩

/-- C4: when the queued closures are pairwise distinct, every closure
posted with no target window is invoked exactly once at the drain, the
whole run of invoked closures respects the enqueue (FIFO) order (it is a
sublist of the queue order), and the queue is empty after the drain. -/
theorem c4_untargeted_fifo (s : AppState) (now : ℚ)
    (hnd : (s.posted.map Posted.fid).Nodup) :
    (∀ p ∈ s.posted, p.window = none →
        (processQueuedEvents s now).executed.count p.fid = 1) ∧
    List.Sublist (processQueuedEvents s now).executed
      (s.posted.map Posted.fid) ∧
    (processQueuedEvents s now).state.posted = [] := by
  rw [pqe_executed]
  refine ⟨?_, drainPosted_sublist s.windows s.posted, pqe_state_posted s now⟩
  intro p hp hw
  have hmem : p.fid ∈ drainPosted s.windows s.posted :=
    mem_drainPosted_of_none hp hw
  have hle : (drainPosted s.windows s.posted).count p.fid
      ≤ (s.posted.map Posted.fid).count p.fid :=
    (drainPosted_sublist s.windows s.posted).count_le p.fid
  have hone : (s.posted.map Posted.fid).count p.fid ≤ 1 :=
    List.nodup_iff_count_le_one.mp hnd p.fid
  have hpos : 0 < (drainPosted s.windows s.posted).count p.fid :=
    List.count_pos_iff.mpr hmem
  omega

def c4_state : AppState := { posted := [⟨none, 4⟩, ⟨some 9, 5⟩] }

theorem c4_untargeted_fifo_witness :
    (c4_state.posted.map Posted.fid).Nodup ∧
    ((∀ p ∈ c4_state.posted, p.window = none →
        (processQueuedEvents c4_state 1).executed.count p.fid = 1) ∧
     List.Sublist (processQueuedEvents c4_state 1).executed
       (c4_state.posted.map Posted.fid) ∧
     (processQueuedEvents c4_state 1).state.posted = []) :=
  ⟨by decide, c4_untargeted_fifo c4_state 1 (by decide)⟩

/-- C5: in every run-loop step, tick events are dispatched to every
active window exactly when at least 95 percent of the 10 ms timeout
interval has elapsed since the last tick dispatch; in that case the
last-tick timestamp becomes the current time, otherwise no window is
ticked and the timestamp is unchanged. -/
theorem c5_tick_threshold (s : AppState) (now : ℚ) :
    (now - s.last_time ≥ 95/100 * RUNLOOP_DELAY_SEC →
        (processQueuedEvents s now).ticked = s.windows ∧
        (processQueuedEvents s now).state.last_time = now) ∧
    (now - s.last_time < 95/100 * RUNLOOP_DELAY_SEC →
        (processQueuedEvents s now).ticked = [] ∧
        (processQueuedEvents s now).state.last_time = s.last_time) := by
  constructor
  · intro h
    rw [pqe_ticked, pqe_state_last_time, if_pos h, if_pos h]
    exact ⟨rfl, rfl⟩
  · intro h
    rw [pqe_ticked, pqe_state_last_time, if_neg (not_le.mpr h),
        if_neg (not_le.mpr h)]
    exact ⟨rfl, rfl⟩

theorem c5_tick_threshold_witness :
    (1:ℚ) - initState.last_time ≥ 95/100 * RUNLOOP_DELAY_SEC ∧
    ((processQueuedEvents initState 1).ticked = initState.windows ∧
     (processQueuedEvents initState 1).state.last_time = 1) := by
  have h : (1:ℚ) - initState.last_time ≥ 95/100 * RUNLOOP_DELAY_SEC := by
    show (1:ℚ) - 0 ≥ 95/100 * (1/100)
    norm_num
  exact ⟨h, (c5_tick_threshold initState 1).1 h⟩

/-- C6: a step taken while not RUNNING with the app uninitialized, or
the resource directory missing, or the UI font file missing, surfaces a
native alert, returns the do-not-continue result, leaves the state
untouched (in particular never enters RUNNING), and performs no tick or
closure processing. -/
theorem c6_config_error (dirExists fileExists : String → Bool) (now : ℚ)
    (cu : Bool) (s : AppState) (hrun : s.is_running = false)
    (h : s.is_init = false ∨ dirExists s.resource_path = false
          ∨ fileExists s.font_path = false) :
    (runOneTick dirExists fileExists now cu s).alert.isSome = true ∧
    (runOneTick dirExists fileExists now cu s).res = false ∧
    (runOneTick dirExists fileExists now cu s).state = s ∧
    (runOneTick dirExists fileExists now cu s).ticked = [] ∧
    (runOneTick dirExists fileExists now cu s).executed = [] := by
  rcases h with h | h | h
  · simp [runOneTick, hrun, h]
  · cases hi : s.is_init
    · simp [runOneTick, hrun, hi]
    · simp [runOneTick, hrun, h, hi]
  · cases hi : s.is_init
    · simp [runOneTick, hrun, hi]
    · cases hd : dirExists s.resource_path
      · simp [runOneTick, hrun, hi, hd]
      · simp [runOneTick, hrun, h, hi, hd]

theorem c6_config_error_witness :
    initState.is_running = false ∧
    (initState.is_init = false ∨
      (fun _ => false) initState.resource_path = false ∨
      (fun _ => false) initState.font_path = false) ∧
    ((runOneTick (fun _ => false) (fun _ => false) 1 true initState).alert.isSome
        = true ∧
     (runOneTick (fun _ => false) (fun _ => false) 1 true initState).res
        = false ∧
     (runOneTick (fun _ => false) (fun _ => false) 1 true initState).state
        = initState ∧
     (runOneTick (fun _ => false) (fun _ => false) 1 true initState).ticked
        = [] ∧
     (runOneTick (fun _ => false) (fun _ => false) 1 true initState).executed
        = []) :=
  ⟨rfl, Or.inl rfl,
   c6_config_error (fun _ => false) (fun _ => false) 1 true initState rfl
     (Or.inl rfl)⟩

/-- The C7 evaluation state: the quit flag is set and two background
tasks are still running when the step begins. -/
def c7_state : AppState :=
  { is_init := true, is_running := true, should_quit := true,
    running_tasks := [⟨1, false⟩, ⟨2, false⟩] }

/-- C7: evaluation at the failing input.  A step whose event processing
reports DONE with cleanup requested, starting with the two unfinished
background tasks 1 and 2, erases only task 1: the task-clearing loop
advances the iterator twice per iteration, so task 2 is still in
running_tasks_ (hence not joined) when is_running_ is cleared and the
environment is uninitialized.  The QuitFlag is reset as claimed. -/
theorem c7_unjoined_task_left :
    (runOneTick (fun _ => true) (fun _ => true) 1 true c7_state).state.running_tasks
      = [⟨2, false⟩] ∧
    (runOneTick (fun _ => true) (fun _ => true) 1 true c7_state).state.is_ws_init
      = false ∧
    (runOneTick (fun _ => true) (fun _ => true) 1 true c7_state).state.is_running
      = false ∧
    (runOneTick (fun _ => true) (fun _ => true) 1 true c7_state).state.should_quit
      = false := by
  have hrw : runOneTick (fun _ => true) (fun _ => true) 1 true c7_state
      = runTickBody 1 true c7_state :=
    runOneTick_of_running rfl (fun _ => true) (fun _ => true) 1 true
  have h := runTickBody_done_cleanup 1 c7_state rfl
  rw [hrw, h.1, pqe_state_running_tasks]
  exact ⟨rfl, h.2⟩

/-- C8: removing the last window from the active set sets the QuitFlag
and empties the active set, and the next step returns the non-continue
result with the active set still empty. -/
theorem c8_last_window_quit (dirExists fileExists : String → Bool)
    (now : ℚ) (cu : Bool) (s : AppState) (w : Nat)
    (hw : s.windows = [w]) (hrun : s.is_running = true) :
    (removeWindow s w).should_quit = true ∧
    (removeWindow s w).windows = [] ∧
    (runOneTick dirExists fileExists now cu (removeWindow s w)).res
      = false ∧
    (runOneTick dirExists fileExists now cu (removeWindow s w)).state.windows
      = [] := by
  have hwin : (removeWindow s w).windows = [] := by
    rw [removeWindow_windows, hw]
    simp
  have hq : (removeWindow s w).should_quit = true := by
    rw [removeWindow_should_quit, hwin]
    rfl
  have hrun2 : (removeWindow s w).is_running = true := by
    rw [removeWindow_is_running]
    exact hrun
  refine ⟨hq, hwin, ?_, ?_⟩
  · rw [runOneTick_of_running hrun2, runTickBody_res, pqe_status, hq]
    simp
  · rw [runOneTick_of_running hrun2, runTickBody_state_windows, hwin]

def c8_state : AppState :=
  { is_init := true, is_running := true, windows := [5] }

theorem c8_last_window_quit_witness :
    c8_state.windows = [5] ∧ c8_state.is_running = true ∧
    ((removeWindow c8_state 5).should_quit = true ∧
     (removeWindow c8_state 5).windows = [] ∧
     (runOneTick (fun _ => true) (fun _ => true) 1 true
        (removeWindow c8_state 5)).res = false ∧
     (runOneTick (fun _ => true) (fun _ => true) 1 true
        (removeWindow c8_state 5)).state.windows = []) :=
  ⟨rfl, rfl,
   c8_last_window_quit (fun _ => true) (fun _ => true) 1 true c8_state 5
     rfl rfl⟩

end Open3DGui
